import Mathlib

/-!
Verification of the cs2-win-prediction round-feature extraction and validation
pipeline.  The definitions below are a shallow embedding of the Python sources:

* `src/bad/src/data/parser.py` — item catalog, inventory counting helpers
  (`count_weapon`, `count_all_weapon`, `count_items`), the thrown-utility
  extractor (`build_grenade_df`) and the round feature extractor
  (`extract_round_features`).
* `src/validation_script.py` — the rule-based feature validator
  (`validate_features`).

Pandas dataframes are modelled as Lists of row structures; columns with
missing values (`NaN`) are modelled with `Option`; Python ints are `Int`
(or `Nat` for counts that are sums of booleans); the two float-division
average features are modelled with exact rationals.  Pandas `sort_values`
is modelled with `List.insertionSort` (the source's sort order within ties
is unspecified, so any comparison sort is a valid refinement).
-/

namespace CS2

/-! ## Item catalog (parser.py, WEAPON & ITEM DEFINITIONS) -/

def PISTOLS : List String :=
  ["Glock-18", "USP-S", "Tec-9", "P2000", "P250", "Dual Berettas", "CZ75-Auto",
   "Five-SeveN", "R8 Revolver", "Desert Eagle"]

def SMGS : List String := ["MAC-10", "MP9", "UMP-45", "PP-Bizon", "MP5-SD", "MP7", "P90"]

def HEAVY : List String := ["Nova", "Sawed-Off", "MAG-7", "XM1014", "M249", "Negev"]

def RIFLES : List String :=
  ["Galil AR", "FAMAS", "AK-47", "M4A1-S", "M4A4", "AUG", "SG 553", "G3SG1", "SCAR-20"]

def SNIPERS : List String := ["SSG 08", "AWP"]

def GRENADES : List String :=
  ["High Explosive Grenade", "Flashbang", "Smoke Grenade", "Molotov",
   "Incendiary Grenade", "Decoy Grenade"]

def ITEM_PRICES : List (String × Nat) :=
  [("Kevlar Vest", 650), ("Kevlar & Helmet", 1000), ("Zeus x27", 200), ("Defuse Kit", 400),
   ("C4 Explosive", 0),
   ("Glock-18", 200), ("USP-S", 200), ("P2000", 200),
   ("Dual Berettas", 300), ("P250", 300), ("Tec-9", 500), ("Five-SeveN", 500),
   ("CZ75-Auto", 500), ("Desert Eagle", 700), ("R8 Revolver", 600),
   ("MAC-10", 1050), ("MP9", 1250), ("MP7", 1500), ("MP5-SD", 1500), ("UMP-45", 1200),
   ("P90", 2350), ("PP-Bizon", 1400),
   ("Nova", 1050), ("Sawed-Off", 1100), ("MAG-7", 1300), ("XM1014", 2000),
   ("M249", 5200), ("Negev", 1700),
   ("Galil AR", 1800), ("FAMAS", 1950), ("AK-47", 2700), ("M4A4", 2900), ("M4A1-S", 2900),
   ("SG 553", 3000), ("AUG", 3300), ("SSG 08", 1700), ("AWP", 4750), ("G3SG1", 5000),
   ("SCAR-20", 5000),
   ("Molotov", 400), ("Incendiary Grenade", 500), ("Decoy Grenade", 50), ("Flashbang", 200),
   ("High Explosive Grenade", 300), ("Smoke Grenade", 300),
   ("Stock Knife", 0), ("Bayonet", 0), ("Butterfly Knife", 0), ("Falchion Knife", 0),
   ("Flip Knife", 0), ("Gut Knife", 0), ("Huntsman Knife", 0), ("Karambit", 0),
   ("M9 Bayonet", 0), ("Shadow Daggers", 0), ("Bowie Knife", 0), ("Ursus Knife", 0),
   ("Navaja Knife", 0), ("Stiletto Knife", 0), ("Talon Knife", 0), ("Classic Knife", 0),
   ("Skeleton Knife", 0), ("Paracord Knife", 0), ("Survival Knife", 0), ("Nomad Knife", 0),
   ("Kukri Knife", 0)]

/-- `ITEM_PRICES[w]` lookups; every weapon looked up by the source is present,
and an absent name yields price 0 (the catalog tolerance described in the spec). -/
def itemPrice (s : String) : Nat := (ITEM_PRICES.lookup s).getD 0

/-- `ALL_WEAPON_DICT`: the price table restricted to the five weapon categories,
in the source's construction order (rifles, SMGs, pistols, snipers, heavy). -/
def ALL_WEAPON_DICT : List (String × Nat) :=
  (RIFLES ++ SMGS ++ PISTOLS ++ SNIPERS ++ HEAVY).map (fun w => (w, itemPrice w))

/-! ## Data model -/

/-- One row of the round-start tick parse (`start_features` columns that the
extractor reads, after the `team_side` mapping). -/
structure PlayerStart where
  name : String
  team_side : String
  balance : Int
  current_equip_value : Int
deriving DecidableEq

/-- One row of the snapshot tick parse (`snapshot_features` columns that the
extractor reads, after the `team_side` mapping). -/
structure PlayerSnap where
  name : String
  team_side : String
  inventory : List String
  armor_value : Int
  has_helmet : Bool
  has_defuser : Bool
  balance : Int
  current_equip_value : Int
deriving DecidableEq

/-- One row of the previous round's end-of-round parse (already filtered to
living players by the match driver). -/
structure LastTickRow where
  team_side : String
  current_equip_value : Int
deriving DecidableEq

/-- One row of the dataframe returned by `build_grenade_df`
(columns `[tick, thrower, grenade_type]`). -/
structure GrenadeRow where
  tick : Int
  thrower : String
  grenade_type : String
deriving DecidableEq

/-- One raw projectile record from `demawpy.grenades` (the columns that
`build_grenade_df` reads).  `X`, `Y`, `Z` are `Option` so that `notna` is
`Option.isSome`; the numeric position values are never used. -/
structure ProjRecord where
  tick : Int
  thrower : String
  grenade_type : String
  entity_id : Int
  X : Option Int
  Y : Option Int
  Z : Option Int
deriving DecidableEq

/-! ## Helper functions (parser.py) -/

/-- `count_weapon`: explode every player's inventory and count the entries
that are in the requested item list (the source accepts a single name or a
set; both are resolved to a collection before counting). -/
def count_weapon (snapshot_data : List PlayerSnap) (weapons : List String) : Nat :=
  (((snapshot_data.map (fun p => p.inventory)).flatten).filter
    (fun w => weapons.contains w)).length

/-- `count_all_weapon`: total weapon value of a team,
`sum over ALL_WEAPON_DICT of count_weapon × price`. -/
def count_all_weapon (snapshot_data : List PlayerSnap) : Nat :=
  ALL_WEAPON_DICT.foldl (fun total wp => total + count_weapon snapshot_data [wp.1] * wp.2) 0

/-- `count_items`: inventory occurrences at the snapshot plus rows of the
thrown-grenade table whose `grenade_type` is among the requested items.
(`None` and the empty table both contribute a throw count of 0, as in the
source's `is not None and not empty` guard.) -/
def count_items (snapshot_data : List PlayerSnap) (grenade_df : Option (List GrenadeRow))
    (items : List String) : Nat :=
  let inv_count :=
    (((snapshot_data.map (fun p => p.inventory)).flatten).filter
      (fun w => items.contains w)).length
  let throw_count :=
    match grenade_df with
    | none => 0
    | some g => (g.filter (fun r => items.contains r.grenade_type)).length
  inv_count + throw_count

/-! ## Thrown-utility extractor (`build_grenade_df`) -/

/-- Strip the engine's class naming convention from a raw projectile type
label: one leading `C` (the regex `^C`) and one trailing `Projectile`
(the regex `Projectile$`), in that order. -/
def stripChars (cs : List Char) : List Char :=
  let cs1 :=
    match cs with
    | 'C' :: rest => rest
    | other => other
  if ("Projectile".data).isSuffixOf cs1 then cs1.take (cs1.length - 10) else cs1

def stripLabel (s : String) : String := String.mk (stripChars s.data)

/-- The six-key canonicalization mapping applied to stripped labels. -/
def grenadeMapping : List (String × String) :=
  [("SmokeGrenade", "Smoke Grenade"),
   ("Flashbang", "Flashbang"),
   ("HEGrenade", "High Explosive Grenade"),
   ("MolotovGrenade", "Molotov"),
   ("IncendiaryGrenade", "Incendiary Grenade"),
   ("DecoyGrenade", "Decoy Grenade")]

/-- `raw.map(mapping).fillna(raw)`: map a stripped label through the
six-key mapping, passing unrecognized labels through unchanged. -/
def canonicalLabel (s : String) : String :=
  match grenadeMapping.lookup (stripLabel s) with
  | some v => v
  | none => stripLabel s

/-- Tick-window filter `(g["tick"] > start_tick) & (g["tick"] <= end_tick)`. -/
def windowFilter (start_tick end_tick : Int) (rs : List ProjRecord) : List ProjRecord :=
  rs.filter (fun r => decide (start_tick < r.tick) && decide (r.tick ≤ end_tick))

/-- Valid-position mask `g[["X", "Y", "Z"]].notna().all(axis=1)`. -/
def hasValidPos (r : ProjRecord) : Bool := r.X.isSome && r.Y.isSome && r.Z.isSome

/-- The qualifying records: in the tick window and with a resolved position. -/
def qualifying (start_tick end_tick : Int) (rs : List ProjRecord) : List ProjRecord :=
  (windowFilter start_tick end_tick rs).filter hasValidPos

/-- Structural helper for `dedupBy`: the fuel always suffices because
filtering never lengthens the list. -/
def dedupByAux {α β : Type} [BEq β] (key : α → β) : Nat → List α → List α
  | _, [] => []
  | 0, _ :: _ => []
  | fuel + 1, x :: xs => x :: dedupByAux key fuel (xs.filter (fun y => !(key y == key x)))

/-- `drop_duplicates(subset=["entity_id"], keep="first")`: keep the first
occurrence of each key. -/
def dedupBy {α β : Type} [BEq β] (key : α → β) (l : List α) : List α :=
  dedupByAux key l.length l

/-- `sort_values("tick")` on raw projectile records. -/
def sortRecsByTick (rs : List ProjRecord) : List ProjRecord :=
  List.insertionSort (fun a b => a.tick ≤ b.tick) rs

/-- `sort_values("tick")` on output rows. -/
def sortRowsByTick (rs : List GrenadeRow) : List GrenadeRow :=
  List.insertionSort (fun a b => a.tick ≤ b.tick) rs

/-- The deduplicated qualifying records,
`g.sort_values("tick").drop_duplicates(subset=["entity_id"], keep="first")`. -/
def keptRecords (start_tick end_tick : Int) (rs : List ProjRecord) : List ProjRecord :=
  dedupBy (fun r => r.entity_id) (sortRecsByTick (qualifying start_tick end_tick rs))

/-- Column projection `g[["tick", "thrower", "grenade_type"]]` with the
cleaned grenade-type label. -/
def projRow (r : ProjRecord) : GrenadeRow :=
  { tick := r.tick, thrower := r.thrower, grenade_type := canonicalLabel r.grenade_type }

/-- `build_grenade_df`: extract grenades thrown between `start_tick`
(exclusive) and `end_tick` (inclusive); empty dataframe (not an error) when
either filter leaves no record. -/
def build_grenade_df (start_tick end_tick : Int) (rs : List ProjRecord) : List GrenadeRow :=
  let g := windowFilter start_tick end_tick rs
  if g.isEmpty then []
  else if (g.filter hasValidPos).isEmpty then []
  else
    sortRowsByTick
      ((dedupBy (fun r => r.entity_id) (sortRecsByTick (g.filter hasValidPos))).map projRow)

/-! ## Round feature extractor (`extract_round_features`) -/

/-- The record built by `extract_round_features` (the Python function returns
a dict; `roundFeaturesKeys` below lists its keys in insertion order).  The
`*_avg` fields are float divisions in the source, modelled exactly as
rationals. -/
structure RoundFeatures where
  ct_money_total : Int
  t_money_total : Int
  ct_cash : Int
  t_cash : Int
  ct_cash_avg : Rat
  t_cash_avg : Rat
  ct_armor_count : Nat
  t_armor_count : Nat
  ct_helmet_count : Nat
  t_helmet_count : Nat
  ct_defuser_count : Nat
  ct_awp_count : Nat
  t_awp_count : Nat
  ct_ssg_count : Nat
  t_ssg_count : Nat
  ct_rifle_count : Nat
  t_rifle_count : Nat
  ct_smg_count : Nat
  t_smg_count : Nat
  ct_heavy_count : Nat
  t_heavy_count : Nat
  ct_ak_count : Nat
  ct_smoke_count : Nat
  t_smoke_count : Nat
  ct_molo_count : Nat
  t_molo_count : Nat
  ct_flash_count : Nat
  t_flash_count : Nat
  ct_he_count : Nat
  t_he_count : Nat
  ct_utility_value : Nat
  t_utility_value : Nat
  ct_equipment_value : Nat
  t_equipment_value : Nat
  ct_equipment_value_avg : Rat
  t_equipment_value_avg : Rat
  round_number : Int
  ct_score : Int
  t_score : Int
  ct_rounds_won_streak : Int
  ct_rounds_lost_streak : Int
  t_rounds_won_streak : Int
  t_rounds_lost_streak : Int
  map_name : String
  is_overtime : Int
  ct_survivors_previous : Nat
  t_survivors_previous : Nat
  ct_equipment_saved_value : Int
  t_equipment_saved_value : Int
  round_winner : Int
deriving DecidableEq

/-- The keys of the dict returned by `extract_round_features`, in insertion
order (transcribed from the source).  Each key corresponds to the
`RoundFeatures` field of the same name. -/
def roundFeaturesKeys : List String :=
  ["ct_money_total", "t_money_total", "ct_cash", "t_cash", "ct_cash_avg", "t_cash_avg",
   "ct_armor_count", "t_armor_count", "ct_helmet_count", "t_helmet_count",
   "ct_defuser_count",
   "ct_awp_count", "t_awp_count", "ct_ssg_count", "t_ssg_count",
   "ct_rifle_count", "t_rifle_count", "ct_smg_count", "t_smg_count",
   "ct_heavy_count", "t_heavy_count", "ct_ak_count",
   "ct_smoke_count", "t_smoke_count", "ct_molo_count", "t_molo_count",
   "ct_flash_count", "t_flash_count", "ct_he_count", "t_he_count",
   "ct_utility_value", "t_utility_value",
   "ct_equipment_value", "t_equipment_value",
   "ct_equipment_value_avg", "t_equipment_value_avg",
   "round_number", "ct_score", "t_score",
   "ct_rounds_won_streak", "ct_rounds_lost_streak",
   "t_rounds_won_streak", "t_rounds_lost_streak",
   "map_name", "is_overtime",
   "ct_survivors_previous", "t_survivors_previous",
   "ct_equipment_saved_value", "t_equipment_saved_value",
   "round_winner"]

/-- `is_side_switch`: round 13, or an overtime round with
`(round_number - 25) % 3 == 0` (Python `%` on a positive modulus agrees with
`Int.emod` here). -/
def sideSwitch (round_number : Int) : Bool :=
  (round_number == 13) || (decide (round_number > 24) && ((round_number - 25) % 3 == 0))

/-- The four streak counters
(`ct_rounds_won_streak`, `ct_rounds_lost_streak`,
`t_rounds_won_streak`, `t_rounds_lost_streak`):
reset at side switches and when there is no previous round, otherwise
advanced from the previous round's `round_winner`. -/
def streaks (round_number : Int) (previous_round_data : Option RoundFeatures) :
    Int × Int × Int × Int :=
  if sideSwitch round_number then (0, 0, 0, 0)
  else
    match previous_round_data with
    | none => (0, 0, 0, 0)
    | some prev =>
      let ct : Int × Int :=
        if prev.round_winner == 1 then (1 + prev.ct_rounds_won_streak, 0)
        else (0, 1 + prev.ct_rounds_lost_streak)
      let t : Int × Int :=
        if prev.round_winner == 0 then (1 + prev.t_rounds_won_streak, 0)
        else (0, 1 + prev.t_rounds_lost_streak)
      (ct.1, ct.2, t.1, t.2)

/-- `(ct_survivors_previous, t_survivors_previous, ct_equipment_saved_value,
t_equipment_saved_value)`: computed from the previous round's end-of-round
snapshot when it exists and this round is not a side switch; zero otherwise. -/
def savedFields (round_number : Int) (previous_last_tick_data : Option (List LastTickRow)) :
    Nat × Nat × Int × Int :=
  match previous_last_tick_data with
  | some prev =>
    if sideSwitch round_number then (0, 0, 0, 0)
    else
      ((prev.filter (fun p => p.team_side == "CT")).length,
       (prev.filter (fun p => p.team_side == "T")).length,
       ((prev.filter (fun p => p.team_side == "CT")).map (fun p => p.current_equip_value)).sum,
       ((prev.filter (fun p => p.team_side == "T")).map (fun p => p.current_equip_value)).sum)
  | none => (0, 0, 0, 0)

/-- `extract_round_features`: one `RoundFeatures` record from the raw
per-round inputs, mirroring the source feature by feature. -/
def extract_round_features (start_tick_data : List PlayerStart) (round_number : Int)
    (snapshot_data : List PlayerSnap) (grenade_df : Option (List GrenadeRow))
    (map_name : String) (ct_score t_score round_winner : Int)
    (previous_round_data : Option RoundFeatures)
    (previous_last_tick_data : Option (List LastTickRow)) : RoundFeatures :=
  let ct_start_data := start_tick_data.filter (fun p => p.team_side == "CT")
  let t_start_data := start_tick_data.filter (fun p => p.team_side == "T")
  let ct_snapshot_data := snapshot_data.filter (fun p => p.team_side == "CT")
  let t_snapshot_data := snapshot_data.filter (fun p => p.team_side == "T")
  let ct_names := ct_snapshot_data.map (fun p => p.name)
  let t_names := t_snapshot_data.map (fun p => p.name)
  let ct_grenade_df := grenade_df.map (fun g => g.filter (fun r => ct_names.contains r.thrower))
  let t_grenade_df := grenade_df.map (fun g => g.filter (fun r => t_names.contains r.thrower))
  let ct_money_total := ((ct_start_data.map (fun p => p.balance)).sum
    + (ct_start_data.map (fun p => p.current_equip_value)).sum)
  let t_money_total := ((t_start_data.map (fun p => p.balance)).sum
    + (t_start_data.map (fun p => p.current_equip_value)).sum)
  let ct_cash := (ct_snapshot_data.map (fun p => p.balance)).sum
  let t_cash := (t_snapshot_data.map (fun p => p.balance)).sum
  let ct_armor_count := (ct_snapshot_data.filter (fun p => decide (p.armor_value > 0))).length
  let t_armor_count := (t_snapshot_data.filter (fun p => decide (p.armor_value > 0))).length
  let ct_helmet_count := (ct_snapshot_data.filter (fun p => p.has_helmet)).length
  let t_helmet_count := (t_snapshot_data.filter (fun p => p.has_helmet)).length
  let ct_defuser_count := (ct_snapshot_data.filter (fun p => p.has_defuser)).length
  let ct_smoke_count := count_items ct_snapshot_data ct_grenade_df ["Smoke Grenade"]
  let t_smoke_count := count_items t_snapshot_data t_grenade_df ["Smoke Grenade"]
  let ct_molo_count := count_items ct_snapshot_data ct_grenade_df
    ["Incendiary Grenade", "Molotov"]
  let t_molo_count := count_items t_snapshot_data t_grenade_df
    ["Incendiary Grenade", "Molotov"]
  let ct_flash_count := count_items ct_snapshot_data ct_grenade_df ["Flashbang"]
  let t_flash_count := count_items t_snapshot_data t_grenade_df ["Flashbang"]
  let ct_he_count := count_items ct_snapshot_data ct_grenade_df ["High Explosive Grenade"]
  let t_he_count := count_items t_snapshot_data t_grenade_df ["High Explosive Grenade"]
  let ct_utility_value :=
    ct_smoke_count * itemPrice "Smoke Grenade"
    + ct_flash_count * itemPrice "Flashbang"
    + ct_he_count * itemPrice "High Explosive Grenade"
    + count_items ct_snapshot_data ct_grenade_df ["Molotov"] * itemPrice "Molotov"
    + count_items ct_snapshot_data ct_grenade_df ["Incendiary Grenade"]
      * itemPrice "Incendiary Grenade"
    + count_items ct_snapshot_data ct_grenade_df ["Decoy Grenade"] * itemPrice "Decoy Grenade"
  let t_utility_value :=
    t_smoke_count * itemPrice "Smoke Grenade"
    + t_flash_count * itemPrice "Flashbang"
    + t_he_count * itemPrice "High Explosive Grenade"
    + count_items t_snapshot_data t_grenade_df ["Molotov"] * itemPrice "Molotov"
    + count_items t_snapshot_data t_grenade_df ["Incendiary Grenade"]
      * itemPrice "Incendiary Grenade"
    + count_items t_snapshot_data t_grenade_df ["Decoy Grenade"] * itemPrice "Decoy Grenade"
  let ct_equipment_value :=
    ct_armor_count * itemPrice "Kevlar Vest"
    + ct_helmet_count * 350
    + ct_defuser_count * itemPrice "Defuse Kit"
    + ct_utility_value
    + count_all_weapon ct_snapshot_data
  let t_equipment_value :=
    t_armor_count * itemPrice "Kevlar Vest"
    + t_helmet_count * 350
    + t_utility_value
    + count_all_weapon t_snapshot_data
  let s := streaks round_number previous_round_data
  let sv := savedFields round_number previous_last_tick_data
  { ct_money_total := ct_money_total
    t_money_total := t_money_total
    ct_cash := ct_cash
    t_cash := t_cash
    ct_cash_avg := (ct_cash : Rat) / 5
    t_cash_avg := (t_cash : Rat) / 5
    ct_armor_count := ct_armor_count
    t_armor_count := t_armor_count
    ct_helmet_count := ct_helmet_count
    t_helmet_count := t_helmet_count
    ct_defuser_count := ct_defuser_count
    ct_awp_count := count_weapon ct_snapshot_data ["AWP"]
    t_awp_count := count_weapon t_snapshot_data ["AWP"]
    ct_ssg_count := count_weapon ct_snapshot_data ["SSG 08"]
    t_ssg_count := count_weapon t_snapshot_data ["SSG 08"]
    ct_rifle_count := count_weapon ct_snapshot_data RIFLES
    t_rifle_count := count_weapon t_snapshot_data RIFLES
    ct_smg_count := count_weapon ct_snapshot_data SMGS
    t_smg_count := count_weapon t_snapshot_data SMGS
    ct_heavy_count := count_weapon ct_snapshot_data HEAVY
    t_heavy_count := count_weapon t_snapshot_data HEAVY
    ct_ak_count := count_weapon ct_snapshot_data ["AK-47"]
    ct_smoke_count := ct_smoke_count
    t_smoke_count := t_smoke_count
    ct_molo_count := ct_molo_count
    t_molo_count := t_molo_count
    ct_flash_count := ct_flash_count
    t_flash_count := t_flash_count
    ct_he_count := ct_he_count
    t_he_count := t_he_count
    ct_utility_value := ct_utility_value
    t_utility_value := t_utility_value
    ct_equipment_value := ct_equipment_value
    t_equipment_value := t_equipment_value
    ct_equipment_value_avg := (ct_equipment_value : Rat) / 5
    t_equipment_value_avg := (t_equipment_value : Rat) / 5
    round_number := round_number
    ct_score := ct_score
    t_score := t_score
    ct_rounds_won_streak := s.1
    ct_rounds_lost_streak := s.2.1
    t_rounds_won_streak := s.2.2.1
    t_rounds_lost_streak := s.2.2.2
    map_name := map_name
    is_overtime := if round_number > 24 then 1 else 0
    ct_survivors_previous := sv.1
    t_survivors_previous := sv.2.1
    ct_equipment_saved_value := sv.2.2.1
    t_equipment_saved_value := sv.2.2.2
    round_winner := round_winner }

/-- The per-round inputs supplied by the match driver (`parse_demo`), other
than the threaded previous-round record. -/
structure RoundInput where
  start_tick_data : List PlayerStart
  round_number : Int
  snapshot_data : List PlayerSnap
  grenade_df : Option (List GrenadeRow)
  map_name : String
  ct_score : Int
  t_score : Int
  round_winner : Int
  previous_last_tick_data : Option (List LastTickRow)
deriving DecidableEq

/-- The match driver's per-round loop: each round's record is built with the
previous round's record as `previous_round_data`. -/
def buildRounds (prev : Option RoundFeatures) : List RoundInput → List RoundFeatures
  | [] => []
  | inp :: rest =>
    let f := extract_round_features inp.start_tick_data inp.round_number inp.snapshot_data
      inp.grenade_df inp.map_name inp.ct_score inp.t_score inp.round_winner prev
      inp.previous_last_tick_data
    f :: buildRounds (some f) rest

/-! ## Feature validator (`validation_script.py`) -/

/-- One row of the consolidated features table loaded by the validation
script (the columns `validate_features` reads). -/
structure FeatureRow where
  match_file : String
  round_number : Int
  ct_score : Int
  t_score : Int
  ct_cash : Int
  t_cash : Int
  ct_awp_count : Int
  t_awp_count : Int
  ct_rifle_count : Int
  t_rifle_count : Int
  ct_rounds_won_streak : Int
  ct_rounds_lost_streak : Int
  t_rounds_won_streak : Int
  t_rounds_lost_streak : Int
  ct_equipment_saved_value : Int
  t_equipment_saved_value : Int
  ct_survivors_previous : Int
  t_survivors_previous : Int
  ct_money_total : Int
  t_money_total : Int
  round_winner : Int
deriving DecidableEq

/-- One entry of `results["checks"]`.  The source stores either a list of
issue strings or one summary string in `issues`; the one-string case is
modelled as a singleton list. -/
structure CheckResult where
  name : String
  passed : Bool
  issues : List String
deriving DecidableEq

/-- The validator's structured report (`results`), with the summary dict
flattened into `summary_*` fields. -/
structure ValidationReport where
  total_rounds : Nat
  total_matches : Nat
  player_count : CheckResult
  cash_range : CheckResult
  awp_count : CheckResult
  rifle_count : CheckResult
  score_progression : CheckResult
  streak_resets : CheckResult
  equipment_resets : CheckResult
  winner_consistency : CheckResult
  pistol_round : CheckResult
  warnings : List String
  errors : List String
  summary_total_checks : Nat
  summary_passed : Nat
  summary_failed : Nat
  summary_warnings : Nat
  summary_errors : Nat
deriving DecidableEq

/-- Code-point comparison of strings (the order pandas uses for group keys),
written out on the character lists. -/
def charListLt : List Char → List Char → Bool
  | [], [] => false
  | [], _ :: _ => true
  | _ :: _, [] => false
  | a :: as, b :: bs => if a < b then true else if b < a then false else charListLt as bs

def strLt (a b : String) : Bool := charListLt a.data b.data

/-- The distinct `match_file` values in sorted order: the iteration order of
`df.groupby('match_file')`. -/
def matchKeys (df : List FeatureRow) : List String :=
  List.insertionSort (fun a b => strLt a b = true)
    (dedupBy (fun s => s) (df.map (fun r => r.match_file)))

/-- One match's rows sorted by round number
(`match_df.sort_values('round_number')`). -/
def sortedMatchRows (df : List FeatureRow) (k : String) : List FeatureRow :=
  List.insertionSort (fun a b => a.round_number ≤ b.round_number)
    (df.filter (fun r => r.match_file == k))

def scoreMsg (file : String) (r : FeatureRow) (inc : Int) : String :=
  file ++ " Round " ++ toString r.round_number ++ ": score increased by "
    ++ toString inc ++ " (expected 1)"

/-- The inner loop of check 3 (score progression) over one sorted match
group, appending to the cross-match accumulator and stopping at 5 issues. -/
def scoreIssuesGroup (file : String) (acc : List String) : List FeatureRow → List String
  | a :: b :: rest =>
    if sideSwitch b.round_number then scoreIssuesGroup file acc (b :: rest)
    else
      let inc := (b.ct_score - a.ct_score) + (b.t_score - a.t_score)
      if inc == 1 then scoreIssuesGroup file acc (b :: rest)
      else
        let acc' := acc ++ [scoreMsg file b inc]
        if acc'.length ≥ 5 then acc' else scoreIssuesGroup file acc' (b :: rest)
  | _ => acc

/-- Check 3's issue list: per-match scan in group-key order, stopping once
5 issues have accumulated. -/
def scoreIssues (df : List FeatureRow) : List String :=
  (matchKeys df).foldl
    (fun acc k =>
      if acc.length ≥ 5 then acc else scoreIssuesGroup k acc (sortedMatchRows df k)) []

def scoreProgressionError (df : List FeatureRow) : String :=
  "Score progression issues in " ++ toString (scoreIssues df).length ++ " rounds"

/-- Check 4's per-row predicate: a side-switch round with any nonzero
streak counter. -/
def streakBad (r : FeatureRow) : Bool :=
  sideSwitch r.round_number &&
    (!(r.ct_rounds_won_streak == 0) || !(r.ct_rounds_lost_streak == 0) ||
     !(r.t_rounds_won_streak == 0) || !(r.t_rounds_lost_streak == 0))

def streakMsg (r : FeatureRow) : String :=
  r.match_file ++ " Round " ++ toString r.round_number ++ ": streaks not reset at side switch"

def streakIssuesAux (acc : List String) : List FeatureRow → List String
  | [] => acc
  | r :: rest =>
    if streakBad r then
      let acc' := acc ++ [streakMsg r]
      if acc'.length ≥ 5 then acc' else streakIssuesAux acc' rest
    else streakIssuesAux acc rest

/-- Check 5's per-row predicate: a side-switch round with any nonzero
saved-equipment or previous-survivor field. -/
def equipmentBad (r : FeatureRow) : Bool :=
  sideSwitch r.round_number &&
    (!(r.ct_equipment_saved_value == 0) || !(r.t_equipment_saved_value == 0) ||
     !(r.ct_survivors_previous == 0) || !(r.t_survivors_previous == 0))

def equipmentMsg (r : FeatureRow) : String :=
  r.match_file ++ " Round " ++ toString r.round_number
    ++ ": equipment saved not reset at side switch"

def equipmentIssuesAux (acc : List String) : List FeatureRow → List String
  | [] => acc
  | r :: rest =>
    if equipmentBad r then
      let acc' := acc ++ [equipmentMsg r]
      if acc'.length ≥ 5 then acc' else equipmentIssuesAux acc' rest
    else equipmentIssuesAux acc rest

def winnerMsgs (file : String) (a b : FeatureRow) : List String :=
  (if decide (b.ct_score > a.ct_score) && !(a.round_winner == 1) then
    [file ++ " Round " ++ toString b.round_number ++ ": CT score increased but winner="
      ++ toString a.round_winner]
  else []) ++
  (if decide (b.t_score > a.t_score) && !(a.round_winner == 0) then
    [file ++ " Round " ++ toString b.round_number ++ ": T score increased but winner="
      ++ toString a.round_winner]
  else [])

/-- The inner loop of check 6 (winner consistency) over one sorted match
group. -/
def winnerIssuesGroup (file : String) (acc : List String) : List FeatureRow → List String
  | a :: b :: rest =>
    if sideSwitch b.round_number then winnerIssuesGroup file acc (b :: rest)
    else
      let acc' := acc ++ winnerMsgs file a b
      if acc'.length ≥ 5 then acc' else winnerIssuesGroup file acc' (b :: rest)
  | _ => acc

def winnerIssues (df : List FeatureRow) : List String :=
  (matchKeys df).foldl
    (fun acc k =>
      if acc.length ≥ 5 then acc else winnerIssuesGroup k acc (sortedMatchRows df k)) []

/-- The per-row issue messages of check 7 (pistol rounds), in source order:
CT money, T money, AWPs, rifles. -/
def pistolMsgs (r : FeatureRow) : List String :=
  (if !(r.ct_money_total == 5000) then
    [r.match_file ++ ": CT money " ++ toString r.ct_money_total ++ " (expected 5000)"]
  else []) ++
  (if !(r.t_money_total == 5000) then
    [r.match_file ++ ": T money " ++ toString r.t_money_total ++ " (expected 5000)"]
  else []) ++
  (if decide (r.ct_awp_count > 0) || decide (r.t_awp_count > 0) then
    [r.match_file ++ ": AWPs present in pistol round"]
  else []) ++
  (if decide (r.ct_rifle_count > 0) || decide (r.t_rifle_count > 0) then
    [r.match_file ++ ": Rifles present in pistol round"]
  else [])

def pistolIssuesAux (acc : List String) : List FeatureRow → List String
  | [] => acc
  | r :: rest =>
    let acc' := acc ++ pistolMsgs r
    if acc'.length ≥ 5 then acc' else pistolIssuesAux acc' rest

/-- Check 7's issue list, over the rows with `round_number == 1`. -/
def pistolIssues (df : List FeatureRow) : List String :=
  pistolIssuesAux [] (df.filter (fun r => r.round_number == 1))

/-- Check 1: always passes (the source sets `passed: True, issues: []`
unconditionally and never revisits it). -/
def playerCountCheck : CheckResult :=
  { name := "Player count consistency", passed := true, issues := [] }

def maxCashTotal : Int := 16000 * 5

def ctCashIssues (df : List FeatureRow) : List FeatureRow :=
  df.filter (fun r => decide (r.ct_cash > maxCashTotal))

def tCashIssues (df : List FeatureRow) : List FeatureRow :=
  df.filter (fun r => decide (r.t_cash > maxCashTotal))

def cashFail (df : List FeatureRow) : Bool :=
  decide ((ctCashIssues df).length > 0) || decide ((tCashIssues df).length > 0)

def cashRangeCheck (df : List FeatureRow) : CheckResult :=
  if cashFail df then
    { name := "Cash within valid range (0-80k per team)", passed := false,
      issues := ["CT: " ++ toString (ctCashIssues df).length ++ " rounds, T: "
        ++ toString (tCashIssues df).length ++ " rounds exceed max"] }
  else
    { name := "Cash within valid range (0-80k per team)", passed := true, issues := [] }

def cashRangeErrors (df : List FeatureRow) : List String :=
  if cashFail df then
    ["Cash exceeds max in "
      ++ toString ((ctCashIssues df).length + (tCashIssues df).length) ++ " rounds"]
  else []

def ctAwpInvalid (df : List FeatureRow) : List FeatureRow :=
  df.filter (fun r => decide (r.ct_awp_count < 0) || decide (r.ct_awp_count > 5))

def tAwpInvalid (df : List FeatureRow) : List FeatureRow :=
  df.filter (fun r => decide (r.t_awp_count < 0) || decide (r.t_awp_count > 5))

def awpFail (df : List FeatureRow) : Bool :=
  decide ((ctAwpInvalid df).length > 0) || decide ((tAwpInvalid df).length > 0)

def awpCountCheck (df : List FeatureRow) : CheckResult :=
  if awpFail df then
    { name := "AWP count valid (0-5)", passed := false,
      issues := ["Invalid counts in "
        ++ toString ((ctAwpInvalid df).length + (tAwpInvalid df).length) ++ " rounds"] }
  else { name := "AWP count valid (0-5)", passed := true, issues := [] }

def awpCountErrors (df : List FeatureRow) : List String :=
  if awpFail df then ["AWP counts outside 0-5 range"] else []

def ctRifleInvalid (df : List FeatureRow) : List FeatureRow :=
  df.filter (fun r => decide (r.ct_rifle_count < 0) || decide (r.ct_rifle_count > 5))

def tRifleInvalid (df : List FeatureRow) : List FeatureRow :=
  df.filter (fun r => decide (r.t_rifle_count < 0) || decide (r.t_rifle_count > 5))

def rifleFail (df : List FeatureRow) : Bool :=
  decide ((ctRifleInvalid df).length > 0) || decide ((tRifleInvalid df).length > 0)

def rifleCountCheck (df : List FeatureRow) : CheckResult :=
  if rifleFail df then
    { name := "Rifle count valid (0-5)", passed := false,
      issues := ["Invalid counts in "
        ++ toString ((ctRifleInvalid df).length + (tRifleInvalid df).length) ++ " rounds"] }
  else { name := "Rifle count valid (0-5)", passed := true, issues := [] }

def rifleCountWarnings (df : List FeatureRow) : List String :=
  if rifleFail df then ["Rifle counts outside 0-5 range"] else []

def scoreProgressionCheck (df : List FeatureRow) : CheckResult :=
  if (scoreIssues df).isEmpty then
    { name := "Score increases by 1 each round (per match)", passed := true, issues := [] }
  else
    { name := "Score increases by 1 each round (per match)", passed := false,
      issues := scoreIssues df }

def scoreProgressionErrors (df : List FeatureRow) : List String :=
  if (scoreIssues df).isEmpty then [] else [scoreProgressionError df]

def streakResetsCheck (df : List FeatureRow) : CheckResult :=
  if (streakIssuesAux [] df).isEmpty then
    { name := "Streaks reset at side switches", passed := true, issues := [] }
  else
    { name := "Streaks reset at side switches", passed := false,
      issues := streakIssuesAux [] df }

def streakResetsErrors (df : List FeatureRow) : List String :=
  if (streakIssuesAux [] df).isEmpty then []
  else ["Streak reset issues in " ++ toString (streakIssuesAux [] df).length ++ " rounds"]

def equipmentResetsCheck (df : List FeatureRow) : CheckResult :=
  if (equipmentIssuesAux [] df).isEmpty then
    { name := "Equipment saved reset at side switches", passed := true, issues := [] }
  else
    { name := "Equipment saved reset at side switches", passed := false,
      issues := equipmentIssuesAux [] df }

def equipmentResetsErrors (df : List FeatureRow) : List String :=
  if (equipmentIssuesAux [] df).isEmpty then []
  else ["Equipment reset issues in " ++ toString (equipmentIssuesAux [] df).length
    ++ " rounds"]

def winnerConsistencyCheck (df : List FeatureRow) : CheckResult :=
  if (winnerIssues df).isEmpty then
    { name := "Round winner matches score increase", passed := true, issues := [] }
  else
    { name := "Round winner matches score increase", passed := false,
      issues := winnerIssues df }

def winnerConsistencyWarnings (df : List FeatureRow) : List String :=
  if (winnerIssues df).isEmpty then []
  else ["Winner consistency issues in " ++ toString (winnerIssues df).length ++ " rounds"]

def pistolRoundCheck (df : List FeatureRow) : CheckResult :=
  if (pistolIssues df).isEmpty then
    { name := "Pistol round characteristics", passed := true, issues := [] }
  else
    { name := "Pistol round characteristics", passed := false, issues := pistolIssues df }

def pistolRoundWarnings (df : List FeatureRow) : List String :=
  if (pistolIssues df).isEmpty then [] else ["Some pistol rounds have unusual features"]

def allChecks (df : List FeatureRow) : List CheckResult :=
  [playerCountCheck, cashRangeCheck df, awpCountCheck df, rifleCountCheck df,
   scoreProgressionCheck df, streakResetsCheck df, equipmentResetsCheck df,
   winnerConsistencyCheck df, pistolRoundCheck df]

def reportWarnings (df : List FeatureRow) : List String :=
  rifleCountWarnings df ++ winnerConsistencyWarnings df ++ pistolRoundWarnings df

def reportErrors (df : List FeatureRow) : List String :=
  cashRangeErrors df ++ awpCountErrors df ++ scoreProgressionErrors df
    ++ streakResetsErrors df ++ equipmentResetsErrors df

/-- `validate_features`: the full report, checks in source order; the
`errors`/`warnings` lists accumulate in the order the source appends them. -/
def validate_features (df : List FeatureRow) : ValidationReport :=
  { total_rounds := df.length
    total_matches := (dedupBy (fun s => s) (df.map (fun r => r.match_file))).length
    player_count := playerCountCheck
    cash_range := cashRangeCheck df
    awp_count := awpCountCheck df
    rifle_count := rifleCountCheck df
    score_progression := scoreProgressionCheck df
    streak_resets := streakResetsCheck df
    equipment_resets := equipmentResetsCheck df
    winner_consistency := winnerConsistencyCheck df
    pistol_round := pistolRoundCheck df
    warnings := reportWarnings df
    errors := reportErrors df
    summary_total_checks := (allChecks df).length
    summary_passed := ((allChecks df).filter (fun c => c.passed)).length
    summary_failed := (allChecks df).length - ((allChecks df).filter (fun c => c.passed)).length
    summary_warnings := (reportWarnings df).length
    summary_errors := (reportErrors df).length }

/-- The per-transition invariant of the score-progression check: the current
round is a side switch, or the two sides' score deltas sum to exactly 1. -/
def scoreStepOk (a b : FeatureRow) : Prop :=
  sideSwitch b.round_number = true
    ∨ (b.ct_score - a.ct_score) + (b.t_score - a.t_score) = 1

instance : DecidableRel scoreStepOk := fun a b =>
  if h1 : sideSwitch b.round_number = true then isTrue (Or.inl h1)
  else if h2 : (b.ct_score - a.ct_score) + (b.t_score - a.t_score) = 1 then
    isTrue (Or.inr h2)
  else isFalse (fun hc => hc.elim h1 h2)

/-- A directly computing decision procedure for `Chain' scoreStepOk`. -/
def decChainScore : ∀ l : List FeatureRow, Decidable (List.Chain' scoreStepOk l)
  | [] => isTrue List.chain'_nil
  | [a] => isTrue (List.chain'_singleton a)
  | a :: b :: rest =>
    match inferInstanceAs (Decidable (scoreStepOk a b)), decChainScore (b :: rest) with
    | isTrue h1, isTrue h2 => isTrue (List.chain'_cons.mpr ⟨h1, h2⟩)
    | isFalse h1, _ => isFalse (fun hc => h1 (List.chain'_cons.mp hc).1)
    | _, isFalse h2 => isFalse (fun hc => h2 (List.chain'_cons.mp hc).2)

instance (l : List FeatureRow) : Decidable (List.Chain' scoreStepOk l) :=
  decChainScore l

/-! ## Concrete test data for witnesses and counterexamples -/

/-- One CT player still holding one smoke at the snapshot. -/
def exSnapSmoke : List PlayerSnap :=
  [{ name := "alice", team_side := "CT", inventory := ["Smoke Grenade", "Glock-18"],
     armor_value := 0, has_helmet := false, has_defuser := false, balance := 200,
     current_equip_value := 500 }]

/-- Two smokes thrown before the snapshot. -/
def exThrownSmoke : List GrenadeRow :=
  [{ tick := 101, thrower := "alice", grenade_type := "Smoke Grenade" },
   { tick := 150, thrower := "alice", grenade_type := "Smoke Grenade" }]

/-- Raw projectile records: entity 1 sampled twice (earliest tick 7), entity 2
with a type label that strips to the unrecognized `FireBomb`. -/
def exProjRecords : List ProjRecord :=
  [{ tick := 7, thrower := "alice", grenade_type := "CSmokeGrenadeProjectile",
     entity_id := 1, X := some 10, Y := some 20, Z := some 30 },
   { tick := 5, thrower := "bob", grenade_type := "CFireBombProjectile",
     entity_id := 2, X := some 1, Y := some 2, Z := some 3 },
   { tick := 9, thrower := "alice", grenade_type := "CSmokeGrenadeProjectile",
     entity_id := 1, X := some 11, Y := some 21, Z := some 31 }]

/-- Projectile records none of which qualify (out of window / no position). -/
def exNoQualify : List ProjRecord :=
  [{ tick := 50, thrower := "carol", grenade_type := "CFlashbangProjectile",
     entity_id := 3, X := some 1, Y := some 2, Z := some 3 },
   { tick := 6, thrower := "carol", grenade_type := "CFlashbangProjectile",
     entity_id := 4, X := none, Y := some 2, Z := some 3 }]

/-- Previous-round survivor snapshot used in the reset witness. -/
def exLastRows : List LastTickRow :=
  [{ team_side := "CT", current_equip_value := 1000 },
   { team_side := "T", current_equip_value := 500 }]

/-- A round-11 record (no context), then a round-12 record built from it whose
CT won-streak is nonzero: the previous-round context for the round-13 witness. -/
def exRound11 : RoundFeatures :=
  extract_round_features [] 11 [] none "de_test" 5 5 1 none none

def exRound12 : RoundFeatures :=
  extract_round_features [] 12 [] none "de_test" 6 5 1 (some exRound11) (some exLastRows)

/-- Driver input for a minimal one-round match. -/
def exRoundInput : RoundInput :=
  { start_tick_data := [], round_number := 1, snapshot_data := [], grenade_df := none,
    map_name := "de_test", ct_score := 0, t_score := 0, round_winner := 1,
    previous_last_tick_data := none }

/-- The record the driver builds from `exRoundInput` with no previous round. -/
def exFirstRound : RoundFeatures :=
  extract_round_features exRoundInput.start_tick_data exRoundInput.round_number
    exRoundInput.snapshot_data exRoundInput.grenade_df exRoundInput.map_name
    exRoundInput.ct_score exRoundInput.t_score exRoundInput.round_winner none
    exRoundInput.previous_last_tick_data

/-- A one-row table whose round-1 money totals are 4000 (the claim's scenario)
with zero AWPs and rifles. -/
def exDf4000 : List FeatureRow :=
  [{ match_file := "m1", round_number := 1, ct_score := 0, t_score := 0,
     ct_cash := 4000, t_cash := 4000, ct_awp_count := 0, t_awp_count := 0,
     ct_rifle_count := 0, t_rifle_count := 0,
     ct_rounds_won_streak := 0, ct_rounds_lost_streak := 0,
     t_rounds_won_streak := 0, t_rounds_lost_streak := 0,
     ct_equipment_saved_value := 0, t_equipment_saved_value := 0,
     ct_survivors_previous := 0, t_survivors_previous := 0,
     ct_money_total := 4000, t_money_total := 4000, round_winner := 1 }]

/-- The same table with the validator's expected 5000 money totals. -/
def exDf5000 : List FeatureRow :=
  [{ match_file := "m1", round_number := 1, ct_score := 0, t_score := 0,
     ct_cash := 4000, t_cash := 4000, ct_awp_count := 0, t_awp_count := 0,
     ct_rifle_count := 0, t_rifle_count := 0,
     ct_rounds_won_streak := 0, ct_rounds_lost_streak := 0,
     t_rounds_won_streak := 0, t_rounds_lost_streak := 0,
     ct_equipment_saved_value := 0, t_equipment_saved_value := 0,
     ct_survivors_previous := 0, t_survivors_previous := 0,
     ct_money_total := 5000, t_money_total := 5000, round_winner := 1 }]

/-- A two-round match whose round-2 transition increases the total score
by 2: a score-progression violation. -/
def exDfScoreBad : List FeatureRow :=
  [{ match_file := "m1", round_number := 1, ct_score := 0, t_score := 0,
     ct_cash := 0, t_cash := 0, ct_awp_count := 0, t_awp_count := 0,
     ct_rifle_count := 0, t_rifle_count := 0,
     ct_rounds_won_streak := 0, ct_rounds_lost_streak := 0,
     t_rounds_won_streak := 0, t_rounds_lost_streak := 0,
     ct_equipment_saved_value := 0, t_equipment_saved_value := 0,
     ct_survivors_previous := 0, t_survivors_previous := 0,
     ct_money_total := 5000, t_money_total := 5000, round_winner := 1 },
   { match_file := "m1", round_number := 2, ct_score := 2, t_score := 0,
     ct_cash := 0, t_cash := 0, ct_awp_count := 0, t_awp_count := 0,
     ct_rifle_count := 0, t_rifle_count := 0,
     ct_rounds_won_streak := 1, ct_rounds_lost_streak := 0,
     t_rounds_won_streak := 0, t_rounds_lost_streak := 1,
     ct_equipment_saved_value := 0, t_equipment_saved_value := 0,
     ct_survivors_previous := 0, t_survivors_previous := 0,
     ct_money_total := 10000, t_money_total := 10000, round_winner := 1 }]

/-- The same two-round match with a valid score progression. -/
def exDfScoreGood : List FeatureRow :=
  [{ match_file := "m1", round_number := 1, ct_score := 0, t_score := 0,
     ct_cash := 0, t_cash := 0, ct_awp_count := 0, t_awp_count := 0,
     ct_rifle_count := 0, t_rifle_count := 0,
     ct_rounds_won_streak := 0, ct_rounds_lost_streak := 0,
     t_rounds_won_streak := 0, t_rounds_lost_streak := 0,
     ct_equipment_saved_value := 0, t_equipment_saved_value := 0,
     ct_survivors_previous := 0, t_survivors_previous := 0,
     ct_money_total := 5000, t_money_total := 5000, round_winner := 1 },
   { match_file := "m1", round_number := 2, ct_score := 1, t_score := 0,
     ct_cash := 0, t_cash := 0, ct_awp_count := 0, t_awp_count := 0,
     ct_rifle_count := 0, t_rifle_count := 0,
     ct_rounds_won_streak := 1, ct_rounds_lost_streak := 0,
     t_rounds_won_streak := 0, t_rounds_lost_streak := 1,
     ct_equipment_saved_value := 0, t_equipment_saved_value := 0,
     ct_survivors_previous := 0, t_survivors_previous := 0,
     ct_money_total := 10000, t_money_total := 10000, round_winner := 1 }]

/-! ## Infrastructure lemmas -/

instance : IsTotal ProjRecord (fun a b => a.tick ≤ b.tick) :=
  ⟨fun a b => le_total a.tick b.tick⟩

instance : IsTrans ProjRecord (fun a b => a.tick ≤ b.tick) :=
  ⟨fun _ _ _ hab hbc => le_trans hab hbc⟩

instance : IsTotal GrenadeRow (fun a b => a.tick ≤ b.tick) :=
  ⟨fun a b => le_total a.tick b.tick⟩

instance : IsTrans GrenadeRow (fun a b => a.tick ≤ b.tick) :=
  ⟨fun _ _ _ hab hbc => le_trans hab hbc⟩

theorem dedupByAux_congr {α β : Type} [BEq β] (key : α → β) :
    ∀ (n m : Nat) (l : List α), l.length ≤ n → l.length ≤ m →
      dedupByAux key n l = dedupByAux key m l := by
  intro n
  induction n with
  | zero =>
    intro m l hn _
    have : l = [] := List.eq_nil_of_length_eq_zero (Nat.le_zero.mp hn)
    subst this
    cases m <;> rfl
  | succ n ih =>
    intro m l hn hm
    cases l with
    | nil => cases m <;> rfl
    | cons x xs =>
      cases m with
      | zero => exact absurd hm (by simp)
      | succ m =>
        show x :: dedupByAux key n (xs.filter (fun y => !(key y == key x)))
          = x :: dedupByAux key m (xs.filter (fun y => !(key y == key x)))
        have hlen := List.length_filter_le (fun y => !(key y == key x)) xs
        rw [ih m (xs.filter (fun y => !(key y == key x)))
          (le_trans hlen (Nat.le_of_succ_le_succ hn))
          (le_trans hlen (Nat.le_of_succ_le_succ hm))]

theorem dedupBy_nil {α β : Type} [BEq β] (key : α → β) : dedupBy key ([] : List α) = [] :=
  rfl

theorem dedupBy_cons {α β : Type} [BEq β] (key : α → β) (x : α) (xs : List α) :
    dedupBy key (x :: xs) = x :: dedupBy key (xs.filter (fun y => !(key y == key x))) := by
  show x :: dedupByAux key xs.length (xs.filter (fun y => !(key y == key x)))
    = x :: dedupBy key (xs.filter (fun y => !(key y == key x)))
  rw [dedupByAux_congr key xs.length (xs.filter (fun y => !(key y == key x))).length
    (xs.filter (fun y => !(key y == key x))) (List.length_filter_le _ _) le_rfl]
  rfl

/-- Induction along the recursion pattern of `dedupBy`. -/
theorem dedupBy_induction {α β : Type} [BEq β] (key : α → β) (motive : List α → Prop)
    (h0 : motive [])
    (h1 : ∀ x xs, motive (xs.filter (fun y => !(key y == key x))) → motive (x :: xs)) :
    ∀ l, motive l := by
  suffices h : ∀ (n : Nat) (l : List α), l.length ≤ n → motive l from
    fun l => h l.length l le_rfl
  intro n
  induction n with
  | zero =>
    intro l hl
    have : l = [] := List.eq_nil_of_length_eq_zero (Nat.le_zero.mp hl)
    subst this
    exact h0
  | succ n ih =>
    intro l hl
    cases l with
    | nil => exact h0
    | cons x xs =>
      refine h1 x xs (ih _ ?_)
      exact le_trans (List.length_filter_le _ _) (Nat.le_of_succ_le_succ hl)

theorem mem_of_mem_dedupBy {α β : Type} [BEq β] (key : α → β) :
    ∀ (l : List α) (x : α), x ∈ dedupBy key l → x ∈ l := by
  intro l
  induction l using dedupBy_induction key with
  | h0 => intro x hx; simp [dedupBy_nil] at hx
  | h1 y ys ih =>
    intro x hx
    rw [dedupBy_cons] at hx
    rcases List.mem_cons.mp hx with h | h
    · exact h ▸ List.mem_cons_self _ _
    · exact List.mem_cons_of_mem _ (List.mem_of_mem_filter (ih x h))

theorem mem_dedupBy_of_unique {α β : Type} [BEq β] [LawfulBEq β] (key : α → β) :
    ∀ (l : List α) (x : α), x ∈ l → (∀ y ∈ l, key y = key x → y = x) →
      x ∈ dedupBy key l := by
  intro l
  induction l using dedupBy_induction key with
  | h0 => intro x hx _; simp at hx
  | h1 y ys ih =>
    intro x hx huniq
    rw [dedupBy_cons]
    rcases List.mem_cons.mp hx with h | h
    · exact h ▸ List.mem_cons_self _ _
    · by_cases hk : key x = key y
      · have hxy : y = x := huniq y (List.mem_cons_self _ _) hk.symm
        exact hxy ▸ List.mem_cons_self _ _
      · refine List.mem_cons_of_mem _ (ih x (List.mem_filter.mpr ⟨h, by simp [hk]⟩) ?_)
        intro z hz hkz
        exact huniq z (List.mem_cons_of_mem _ (List.mem_of_mem_filter hz)) hkz

theorem nodup_keys_dedupBy {α β : Type} [BEq β] [LawfulBEq β] (key : α → β) :
    ∀ l : List α, ((dedupBy key l).map key).Nodup := by
  intro l
  induction l using dedupBy_induction key with
  | h0 => simp [dedupBy_nil]
  | h1 y ys ih =>
    rw [dedupBy_cons]
    simp only [List.map_cons, List.nodup_cons]
    refine ⟨fun hmem => ?_, ih⟩
    obtain ⟨z, hz, hkz⟩ := List.mem_map.mp hmem
    have hz' := mem_of_mem_dedupBy _ _ z hz
    have hzf := (List.mem_filter.mp hz').2
    simp [hkz] at hzf

theorem mem_keys_dedupBy {α β : Type} [BEq β] [LawfulBEq β] (key : α → β) :
    ∀ (l : List α) (k : β), k ∈ (dedupBy key l).map key ↔ k ∈ l.map key := by
  intro l
  induction l using dedupBy_induction key with
  | h0 => intro k; simp [dedupBy_nil]
  | h1 y ys ih =>
    intro k
    rw [dedupBy_cons]
    simp only [List.map_cons, List.mem_cons]
    constructor
    · rintro (h | h)
      · exact Or.inl h
      · obtain ⟨z, hz, rfl⟩ := List.mem_map.mp ((ih k).mp h)
        exact Or.inr (List.mem_map_of_mem key (List.mem_of_mem_filter hz))
    · rintro (h | h)
      · exact Or.inl h
      · by_cases hk : k = key y
        · exact Or.inl hk
        · refine Or.inr ((ih k).mpr ?_)
          obtain ⟨z, hz, rfl⟩ := List.mem_map.mp h
          exact List.mem_map_of_mem key (List.mem_filter.mpr ⟨hz, by simpa using hk⟩)

theorem dedupBy_min {α β : Type} [BEq β] [LawfulBEq β] (key : α → β) (R : α → α → Prop)
    (hrefl : ∀ a, R a a) :
    ∀ l : List α, l.Pairwise R → ∀ x ∈ dedupBy key l, ∀ y ∈ l, key y = key x → R x y := by
  intro l
  induction l using dedupBy_induction key with
  | h0 => intro _ x hx; simp [dedupBy_nil] at hx
  | h1 a as ih =>
    intro hpw x hx y hy hkey
    rw [dedupBy_cons] at hx
    have hpw' := List.pairwise_cons.mp hpw
    rcases List.mem_cons.mp hx with rfl | hx'
    · rcases List.mem_cons.mp hy with rfl | hy'
      · exact hrefl _
      · exact hpw'.1 y hy'
    · have hxfilter := mem_of_mem_dedupBy _ _ x hx'
      have hxne : ¬(key x = key a) := by
        have := (List.mem_filter.mp hxfilter).2
        simpa using this
      rcases List.mem_cons.mp hy with rfl | hy'
      · exact absurd hkey.symm hxne
      · have hyfilter : y ∈ as.filter (fun z => !(key z == key a)) :=
          List.mem_filter.mpr ⟨hy', by simp [hkey ▸ hxne]⟩
        exact ih (List.Pairwise.sublist (List.filter_sublist _) hpw'.2) x hx' y hyfilter hkey

/-! ## Claims -/

/-- C2: for every team snapshot, thrown-grenade table and item set `X`,
`count_items` equals the inventory occurrences of `X` (which is exactly
`count_weapon`) plus the number of thrown-grenade rows whose type is in `X`;
in particular a team that threw 2 smokes and still holds 1 yields 3. -/
theorem c2_count_items_decomposition :
    (∀ (snapshot_data : List PlayerSnap) (g : List GrenadeRow) (items : List String),
      count_items snapshot_data (some g) items
        = count_weapon snapshot_data items
          + (g.filter (fun r => items.contains r.grenade_type)).length)
    ∧ count_items exSnapSmoke (some exThrownSmoke) ["Smoke Grenade"] = 3 :=
  ⟨fun _ _ _ => rfl, by decide⟩

/-- C10: the validator's player-count check passes with an empty issues list
for every input table; no property of the input can make it fail. -/
theorem c10_player_count_always_passes (df : List FeatureRow) :
    (validate_features df).player_count.passed = true
    ∧ (validate_features df).player_count.issues = [] :=
  ⟨rfl, rfl⟩

/-- Counterexample to C7: the dict returned by `extract_round_features` has
no T-side AK-47 count — `"t_ak_count"` is not among its keys — so the record
does not contain per-side counts for all three of AWP, SSG 08 and AK-47. -/
theorem c7_counterexample : "t_ak_count" ∉ roundFeaturesKeys := by decide

/-- C7 (amended): the record contains CT and T counts for AWP and SSG 08 and
a CT-side count for AK-47, all computed with `count_weapon` over the
snapshot-time inventories of that side only; no T-side AK-47 count exists. -/
theorem c7_per_side_counts_amended (start_tick_data : List PlayerStart) (round_number : Int)
    (snapshot_data : List PlayerSnap) (grenade_df : Option (List GrenadeRow))
    (map_name : String) (ct_score t_score round_winner : Int)
    (previous_round_data : Option RoundFeatures)
    (previous_last_tick_data : Option (List LastTickRow)) :
    (extract_round_features start_tick_data round_number snapshot_data grenade_df map_name
        ct_score t_score round_winner previous_round_data
        previous_last_tick_data).ct_awp_count
      = count_weapon (snapshot_data.filter (fun p => p.team_side == "CT")) ["AWP"]
    ∧ (extract_round_features start_tick_data round_number snapshot_data grenade_df map_name
        ct_score t_score round_winner previous_round_data
        previous_last_tick_data).t_awp_count
      = count_weapon (snapshot_data.filter (fun p => p.team_side == "T")) ["AWP"]
    ∧ (extract_round_features start_tick_data round_number snapshot_data grenade_df map_name
        ct_score t_score round_winner previous_round_data
        previous_last_tick_data).ct_ssg_count
      = count_weapon (snapshot_data.filter (fun p => p.team_side == "CT")) ["SSG 08"]
    ∧ (extract_round_features start_tick_data round_number snapshot_data grenade_df map_name
        ct_score t_score round_winner previous_round_data
        previous_last_tick_data).t_ssg_count
      = count_weapon (snapshot_data.filter (fun p => p.team_side == "T")) ["SSG 08"]
    ∧ (extract_round_features start_tick_data round_number snapshot_data grenade_df map_name
        ct_score t_score round_winner previous_round_data
        previous_last_tick_data).ct_ak_count
      = count_weapon (snapshot_data.filter (fun p => p.team_side == "CT")) ["AK-47"]
    ∧ "ct_awp_count" ∈ roundFeaturesKeys ∧ "t_awp_count" ∈ roundFeaturesKeys
    ∧ "ct_ssg_count" ∈ roundFeaturesKeys ∧ "t_ssg_count" ∈ roundFeaturesKeys
    ∧ "ct_ak_count" ∈ roundFeaturesKeys ∧ "t_ak_count" ∉ roundFeaturesKeys :=
  ⟨rfl, rfl, rfl, rfl, rfl, by decide, by decide, by decide, by decide, by decide, by decide⟩

/-- Counterexample to C8: the dict returned by `extract_round_features`
stores no `is_side_switch` key at all (the side-switch predicate is a local
variable of the extraction), so no extraction of round 28 produces a record
with `is_side_switch == True`. -/
theorem c8_counterexample : "is_side_switch" ∉ roundFeaturesKeys := by decide

/-- C8 (amended): for round 28 the extractor's side-switch predicate is true
(`(28 - 25) % 3 == 0` with `28 > 24`), and the record's `is_overtime` field
is 1 (truthy); the record itself stores no `is_side_switch` key. -/
theorem c8_round28_amended (start_tick_data : List PlayerStart)
    (snapshot_data : List PlayerSnap) (grenade_df : Option (List GrenadeRow))
    (map_name : String) (ct_score t_score round_winner : Int)
    (previous_round_data : Option RoundFeatures)
    (previous_last_tick_data : Option (List LastTickRow)) :
    sideSwitch 28 = true
    ∧ (extract_round_features start_tick_data 28 snapshot_data grenade_df map_name
        ct_score t_score round_winner previous_round_data
        previous_last_tick_data).is_overtime = 1
    ∧ "is_side_switch" ∉ roundFeaturesKeys :=
  ⟨by decide, rfl, by decide⟩

theorem streaks_of_sideSwitch (round_number : Int) (prev : Option RoundFeatures)
    (h : sideSwitch round_number = true) : streaks round_number prev = (0, 0, 0, 0) := by
  simp [streaks, h]

theorem streaks_of_none (round_number : Int) :
    streaks round_number none = (0, 0, 0, 0) := by
  cases hsw : sideSwitch round_number <;> simp [streaks, hsw]

theorem savedFields_of_sideSwitch (round_number : Int)
    (prev : Option (List LastTickRow)) (h : sideSwitch round_number = true) :
    savedFields round_number prev = (0, 0, 0, 0) := by
  cases prev <;> simp [savedFields, h]

/-- C1: all four streak counters are 0 whenever the round is a side-switch
round or `previous_round_data` is absent, and both sides' previous-survivor
and saved-equipment fields are 0 whenever the round is a side-switch round
or `previous_last_tick_data` is absent — regardless of every other input. -/
theorem c1_reset_invariants (start_tick_data : List PlayerStart) (round_number : Int)
    (snapshot_data : List PlayerSnap) (grenade_df : Option (List GrenadeRow))
    (map_name : String) (ct_score t_score round_winner : Int)
    (previous_round_data : Option RoundFeatures)
    (previous_last_tick_data : Option (List LastTickRow)) :
    (sideSwitch round_number = true →
      (extract_round_features start_tick_data round_number snapshot_data grenade_df map_name
        ct_score t_score round_winner previous_round_data
        previous_last_tick_data).ct_rounds_won_streak = 0
      ∧ (extract_round_features start_tick_data round_number snapshot_data grenade_df map_name
        ct_score t_score round_winner previous_round_data
        previous_last_tick_data).ct_rounds_lost_streak = 0
      ∧ (extract_round_features start_tick_data round_number snapshot_data grenade_df map_name
        ct_score t_score round_winner previous_round_data
        previous_last_tick_data).t_rounds_won_streak = 0
      ∧ (extract_round_features start_tick_data round_number snapshot_data grenade_df map_name
        ct_score t_score round_winner previous_round_data
        previous_last_tick_data).t_rounds_lost_streak = 0
      ∧ (extract_round_features start_tick_data round_number snapshot_data grenade_df map_name
        ct_score t_score round_winner previous_round_data
        previous_last_tick_data).ct_survivors_previous = 0
      ∧ (extract_round_features start_tick_data round_number snapshot_data grenade_df map_name
        ct_score t_score round_winner previous_round_data
        previous_last_tick_data).t_survivors_previous = 0
      ∧ (extract_round_features start_tick_data round_number snapshot_data grenade_df map_name
        ct_score t_score round_winner previous_round_data
        previous_last_tick_data).ct_equipment_saved_value = 0
      ∧ (extract_round_features start_tick_data round_number snapshot_data grenade_df map_name
        ct_score t_score round_winner previous_round_data
        previous_last_tick_data).t_equipment_saved_value = 0)
    ∧ (previous_round_data = none →
      (extract_round_features start_tick_data round_number snapshot_data grenade_df map_name
        ct_score t_score round_winner previous_round_data
        previous_last_tick_data).ct_rounds_won_streak = 0
      ∧ (extract_round_features start_tick_data round_number snapshot_data grenade_df map_name
        ct_score t_score round_winner previous_round_data
        previous_last_tick_data).ct_rounds_lost_streak = 0
      ∧ (extract_round_features start_tick_data round_number snapshot_data grenade_df map_name
        ct_score t_score round_winner previous_round_data
        previous_last_tick_data).t_rounds_won_streak = 0
      ∧ (extract_round_features start_tick_data round_number snapshot_data grenade_df map_name
        ct_score t_score round_winner previous_round_data
        previous_last_tick_data).t_rounds_lost_streak = 0)
    ∧ (previous_last_tick_data = none →
      (extract_round_features start_tick_data round_number snapshot_data grenade_df map_name
        ct_score t_score round_winner previous_round_data
        previous_last_tick_data).ct_survivors_previous = 0
      ∧ (extract_round_features start_tick_data round_number snapshot_data grenade_df map_name
        ct_score t_score round_winner previous_round_data
        previous_last_tick_data).t_survivors_previous = 0
      ∧ (extract_round_features start_tick_data round_number snapshot_data grenade_df map_name
        ct_score t_score round_winner previous_round_data
        previous_last_tick_data).ct_equipment_saved_value = 0
      ∧ (extract_round_features start_tick_data round_number snapshot_data grenade_df map_name
        ct_score t_score round_winner previous_round_data
        previous_last_tick_data).t_equipment_saved_value = 0) := by
  refine ⟨fun h => ?_, fun h => ?_, fun h => ?_⟩
  · have hs := streaks_of_sideSwitch round_number previous_round_data h
    have hv := savedFields_of_sideSwitch round_number previous_last_tick_data h
    refine ⟨?_, ?_, ?_, ?_, ?_, ?_, ?_, ?_⟩
    · show (streaks round_number previous_round_data).1 = 0
      rw [hs]
    · show (streaks round_number previous_round_data).2.1 = 0
      rw [hs]
    · show (streaks round_number previous_round_data).2.2.1 = 0
      rw [hs]
    · show (streaks round_number previous_round_data).2.2.2 = 0
      rw [hs]
    · show (savedFields round_number previous_last_tick_data).1 = 0
      rw [hv]
    · show (savedFields round_number previous_last_tick_data).2.1 = 0
      rw [hv]
    · show (savedFields round_number previous_last_tick_data).2.2.1 = 0
      rw [hv]
    · show (savedFields round_number previous_last_tick_data).2.2.2 = 0
      rw [hv]
  · subst h
    have hs := streaks_of_none round_number
    refine ⟨?_, ?_, ?_, ?_⟩
    · show (streaks round_number none).1 = 0
      rw [hs]
    · show (streaks round_number none).2.1 = 0
      rw [hs]
    · show (streaks round_number none).2.2.1 = 0
      rw [hs]
    · show (streaks round_number none).2.2.2 = 0
      rw [hs]
  · subst h
    exact ⟨rfl, rfl, rfl, rfl⟩

/-- Witness for C1: a concrete round-13 extraction whose previous round has a
nonzero CT won-streak and whose previous survivor snapshot is nonempty still
gets all streak and saved fields equal to 0. -/
theorem c1_reset_invariants_witness :
    ((extract_round_features [] 13 [] none "de_test" 6 6 0 (some exRound12)
        (some exLastRows)).ct_rounds_won_streak = 0
      ∧ (extract_round_features [] 13 [] none "de_test" 6 6 0 (some exRound12)
        (some exLastRows)).ct_rounds_lost_streak = 0
      ∧ (extract_round_features [] 13 [] none "de_test" 6 6 0 (some exRound12)
        (some exLastRows)).t_rounds_won_streak = 0
      ∧ (extract_round_features [] 13 [] none "de_test" 6 6 0 (some exRound12)
        (some exLastRows)).t_rounds_lost_streak = 0
      ∧ (extract_round_features [] 13 [] none "de_test" 6 6 0 (some exRound12)
        (some exLastRows)).ct_survivors_previous = 0
      ∧ (extract_round_features [] 13 [] none "de_test" 6 6 0 (some exRound12)
        (some exLastRows)).t_survivors_previous = 0
      ∧ (extract_round_features [] 13 [] none "de_test" 6 6 0 (some exRound12)
        (some exLastRows)).ct_equipment_saved_value = 0
      ∧ (extract_round_features [] 13 [] none "de_test" 6 6 0 (some exRound12)
        (some exLastRows)).t_equipment_saved_value = 0)
    ∧ exRound12.ct_rounds_won_streak = 1 :=
  ⟨(c1_reset_invariants [] 13 [] none "de_test" 6 6 0 (some exRound12)
      (some exLastRows)).1 (by decide),
   by decide⟩

theorem streaks_dual (round_number : Int) (prev : Option RoundFeatures)
    (h : ∀ p, prev = some p →
      (p.ct_rounds_won_streak = p.t_rounds_lost_streak
        ∧ p.t_rounds_won_streak = p.ct_rounds_lost_streak)
      ∧ (p.round_winner = 0 ∨ p.round_winner = 1)) :
    (streaks round_number prev).1 = (streaks round_number prev).2.2.2
    ∧ (streaks round_number prev).2.2.1 = (streaks round_number prev).2.1 := by
  by_cases hsw : sideSwitch round_number
  · simp [streaks, hsw]
  · cases prev with
    | none => simp [streaks, hsw]
    | some p =>
      obtain ⟨⟨h1, h2⟩, h3⟩ := h p rfl
      rcases h3 with h3 | h3
      · simp [streaks, hsw, h3, h1, h2]
      · simp [streaks, hsw, h3, h1, h2]

theorem buildRounds_dual (inputs : List RoundInput) :
    ∀ prev : Option RoundFeatures,
      (∀ p, prev = some p →
        (p.ct_rounds_won_streak = p.t_rounds_lost_streak
          ∧ p.t_rounds_won_streak = p.ct_rounds_lost_streak)
        ∧ (p.round_winner = 0 ∨ p.round_winner = 1)) →
      (∀ inp ∈ inputs, inp.round_winner = 0 ∨ inp.round_winner = 1) →
      ∀ F ∈ buildRounds prev inputs,
        (F.ct_rounds_won_streak = F.t_rounds_lost_streak
          ∧ F.t_rounds_won_streak = F.ct_rounds_lost_streak)
        ∧ (F.round_winner = 0 ∨ F.round_winner = 1) := by
  induction inputs with
  | nil => intro prev _ _ F hF; simp [buildRounds] at hF
  | cons inp rest ih =>
    intro prev hprev hw F hF
    rw [buildRounds] at hF
    have hhead :
        ((extract_round_features inp.start_tick_data inp.round_number inp.snapshot_data
            inp.grenade_df inp.map_name inp.ct_score inp.t_score inp.round_winner prev
            inp.previous_last_tick_data).ct_rounds_won_streak
          = (extract_round_features inp.start_tick_data inp.round_number inp.snapshot_data
            inp.grenade_df inp.map_name inp.ct_score inp.t_score inp.round_winner prev
            inp.previous_last_tick_data).t_rounds_lost_streak
        ∧ (extract_round_features inp.start_tick_data inp.round_number inp.snapshot_data
            inp.grenade_df inp.map_name inp.ct_score inp.t_score inp.round_winner prev
            inp.previous_last_tick_data).t_rounds_won_streak
          = (extract_round_features inp.start_tick_data inp.round_number inp.snapshot_data
            inp.grenade_df inp.map_name inp.ct_score inp.t_score inp.round_winner prev
            inp.previous_last_tick_data).ct_rounds_lost_streak)
        ∧ ((extract_round_features inp.start_tick_data inp.round_number inp.snapshot_data
            inp.grenade_df inp.map_name inp.ct_score inp.t_score inp.round_winner prev
            inp.previous_last_tick_data).round_winner = 0
          ∨ (extract_round_features inp.start_tick_data inp.round_number inp.snapshot_data
            inp.grenade_df inp.map_name inp.ct_score inp.t_score inp.round_winner prev
            inp.previous_last_tick_data).round_winner = 1) := by
      refine ⟨⟨?_, ?_⟩, ?_⟩
      · exact (streaks_dual inp.round_number prev hprev).1
      · exact (streaks_dual inp.round_number prev hprev).2
      · exact hw inp (List.mem_cons_self _ _)
    rcases List.mem_cons.mp hF with rfl | hF'
    · exact hhead
    · refine ih _ (fun p hp => ?_) (fun i hi => hw i (List.mem_cons_of_mem _ hi)) F hF'
      cases hp
      exact hhead

/-- C5: in every round-by-round sequence built by the match driver — each
round receiving the previous round's record as `previous_round_data`, with
every supplied `round_winner` equal to 0 or 1 — every record's CT won-streak
equals the T lost-streak and vice versa. -/
theorem c5_streak_duality (inputs : List RoundInput)
    (h : ∀ inp ∈ inputs, inp.round_winner = 0 ∨ inp.round_winner = 1) :
    ∀ F ∈ buildRounds none inputs,
      F.ct_rounds_won_streak = F.t_rounds_lost_streak
      ∧ F.t_rounds_won_streak = F.ct_rounds_lost_streak :=
  fun F hF =>
    (buildRounds_dual inputs none (fun p hp => by cases hp) h F hF).1

/-- Witness for C5: the concrete one-round match built from `exRoundInput`. -/
theorem c5_streak_duality_witness :
    exFirstRound.ct_rounds_won_streak = exFirstRound.t_rounds_lost_streak
    ∧ exFirstRound.t_rounds_won_streak = exFirstRound.ct_rounds_lost_streak :=
  c5_streak_duality [exRoundInput] (by decide) exFirstRound
    (List.mem_singleton.mpr rfl)

theorem pistolMsgs_eq_nil (r : FeatureRow) (h1 : r.ct_money_total = 5000)
    (h2 : r.t_money_total = 5000) (h3 : r.ct_awp_count = 0) (h4 : r.t_awp_count = 0)
    (h5 : r.ct_rifle_count = 0) (h6 : r.t_rifle_count = 0) : pistolMsgs r = [] := by
  simp [pistolMsgs, h1, h2, h3, h4, h5, h6]

theorem pistolIssuesAux_eq_self :
    ∀ (l : List FeatureRow) (acc : List String), (∀ r ∈ l, pistolMsgs r = []) →
      pistolIssuesAux acc l = acc := by
  intro l
  induction l with
  | nil => intro acc _; rfl
  | cons r rest ih =>
    intro acc h
    have hr := h r (List.mem_cons_self _ _)
    rw [pistolIssuesAux]
    simp only [hr, List.append_nil]
    by_cases hl : acc.length ≥ 5
    · simp [hl]
    · simp only [hl, if_false]
      exact ih acc (fun x hx => h x (List.mem_cons_of_mem _ hx))

/-- Counterexample to C6: a table whose single round-1 row has
`ct_money_total == t_money_total == 4000` (the claim's fresh-match figure),
zero AWPs and zero rifles, on which the validator's pistol-round check fails
(the source requires money totals of exactly 5000). -/
theorem c6_pistol_round_counterexample :
    (∀ r ∈ exDf4000, r.round_number = 1 → r.ct_money_total = 4000
      ∧ r.t_money_total = 4000 ∧ r.ct_awp_count = 0 ∧ r.t_awp_count = 0
      ∧ r.ct_rifle_count = 0 ∧ r.t_rifle_count = 0)
    ∧ (validate_features exDf4000).pistol_round.passed = false
    ∧ (validate_features exDf4000).pistol_round.issues ≠ [] :=
  ⟨by decide, by decide, by decide⟩

/-- C6 (amended): for a table whose round-1 rows all have
`ct_money_total == t_money_total == 5000` (the validator's expected fresh
start: 5 × 800 balance plus starting-pistol equipment), zero AWPs and zero
rifles on both sides, the pistol-round check passes with an empty issues
list. -/
theorem c6_pistol_round_amended (df : List FeatureRow)
    (h : ∀ r ∈ df, r.round_number = 1 → r.ct_money_total = 5000
      ∧ r.t_money_total = 5000 ∧ r.ct_awp_count = 0 ∧ r.t_awp_count = 0
      ∧ r.ct_rifle_count = 0 ∧ r.t_rifle_count = 0) :
    (validate_features df).pistol_round.passed = true
    ∧ (validate_features df).pistol_round.issues = [] := by
  have hpi : pistolIssues df = [] := by
    unfold pistolIssues
    apply pistolIssuesAux_eq_self
    intro r hr
    obtain ⟨hrdf, hr1⟩ := List.mem_filter.mp hr
    have hr1' : r.round_number = 1 := by simpa using hr1
    obtain ⟨m1, m2, m3, m4, m5, m6⟩ := h r hrdf hr1'
    exact pistolMsgs_eq_nil r m1 m2 m3 m4 m5 m6
  have hc : (validate_features df).pistol_round = pistolRoundCheck df := rfl
  rw [hc]
  unfold pistolRoundCheck
  simp [hpi]

/-- Witness for C6 (amended): the validator passes on the concrete
5000-money pistol-round table. -/
theorem c6_pistol_round_amended_witness :
    (validate_features exDf5000).pistol_round.passed = true
    ∧ (validate_features exDf5000).pistol_round.issues = [] :=
  c6_pistol_round_amended exDf5000 (by decide)

theorem scoreIssuesGroup_prefix (file : String) :
    ∀ (l : List FeatureRow) (acc : List String),
      ∃ t, scoreIssuesGroup file acc l = acc ++ t := by
  intro l
  induction l with
  | nil => exact fun acc => ⟨[], by simp [scoreIssuesGroup]⟩
  | cons a tail ih =>
    intro acc
    cases tail with
    | nil => exact ⟨[], by simp [scoreIssuesGroup]⟩
    | cons b rest =>
      rw [scoreIssuesGroup]
      by_cases h1 : sideSwitch b.round_number = true
      · rw [if_pos h1]
        exact ih acc
      · rw [if_neg h1]
        by_cases h2 : (b.ct_score - a.ct_score) + (b.t_score - a.t_score) = 1
        · rw [if_pos (by simpa using h2)]
          exact ih acc
        · rw [if_neg (by simpa using h2)]
          by_cases h3 : (acc
              ++ [scoreMsg file b ((b.ct_score - a.ct_score) + (b.t_score - a.t_score))]).length
              ≥ 5
          · rw [if_pos h3]
            exact ⟨[scoreMsg file b ((b.ct_score - a.ct_score) + (b.t_score - a.t_score))],
              rfl⟩
          · rw [if_neg h3]
            obtain ⟨t', ht'⟩ := ih (acc
              ++ [scoreMsg file b ((b.ct_score - a.ct_score) + (b.t_score - a.t_score))])
            exact ⟨[scoreMsg file b ((b.ct_score - a.ct_score) + (b.t_score - a.t_score))]
              ++ t', by rw [ht', List.append_assoc]⟩

theorem scoreIssuesGroup_of_chain (file : String) :
    ∀ (l : List FeatureRow) (acc : List String), List.Chain' scoreStepOk l →
      scoreIssuesGroup file acc l = acc := by
  intro l
  induction l with
  | nil => intro acc _; rfl
  | cons a tail ih =>
    intro acc hch
    cases tail with
    | nil => rfl
    | cons b rest =>
      have hstep : scoreStepOk a b := (List.chain'_cons.mp hch).1
      have htail : List.Chain' scoreStepOk (b :: rest) := (List.chain'_cons.mp hch).2
      rw [scoreIssuesGroup]
      by_cases h1 : sideSwitch b.round_number = true
      · rw [if_pos h1]
        exact ih acc htail
      · have h2 : (b.ct_score - a.ct_score) + (b.t_score - a.t_score) = 1 := by
          rcases hstep with h | h
          · exact absurd h h1
          · exact h
        rw [if_neg h1, if_pos (by simpa using h2)]
        exact ih acc htail

theorem scoreIssuesGroup_of_not_chain (file : String) :
    ∀ (l : List FeatureRow) (acc : List String), ¬ List.Chain' scoreStepOk l →
      acc.length < (scoreIssuesGroup file acc l).length := by
  intro l
  induction l with
  | nil => intro acc h; exact absurd List.chain'_nil h
  | cons a tail ih =>
    intro acc hch
    cases tail with
    | nil => exact absurd (List.chain'_singleton a) hch
    | cons b rest =>
      rw [scoreIssuesGroup]
      rw [List.chain'_cons] at hch
      push_neg at hch
      by_cases h1 : sideSwitch b.round_number = true
      · rw [if_pos h1]
        exact ih acc (hch (Or.inl h1))
      · rw [if_neg h1]
        by_cases h2 : (b.ct_score - a.ct_score) + (b.t_score - a.t_score) = 1
        · rw [if_pos (by simpa using h2)]
          exact ih acc (hch (Or.inr h2))
        · rw [if_neg (by simpa using h2)]
          by_cases h3 : (acc
              ++ [scoreMsg file b ((b.ct_score - a.ct_score) + (b.t_score - a.t_score))]).length
              ≥ 5
          · rw [if_pos h3]
            simp
          · rw [if_neg h3]
            obtain ⟨t, ht⟩ := scoreIssuesGroup_prefix file (b :: rest) (acc
              ++ [scoreMsg file b ((b.ct_score - a.ct_score) + (b.t_score - a.t_score))])
            rw [ht]
            calc acc.length
                < (acc ++ [scoreMsg file b ((b.ct_score - a.ct_score)
                    + (b.t_score - a.t_score))]).length := by simp
              _ ≤ ((acc ++ [scoreMsg file b ((b.ct_score - a.ct_score)
                    + (b.t_score - a.t_score))]) ++ t).length := by simp

theorem scoreIssuesGroup_eq_iff (file : String) (l : List FeatureRow) (acc : List String) :
    scoreIssuesGroup file acc l = acc ↔ List.Chain' scoreStepOk l := by
  constructor
  · intro h
    by_contra hch
    have hlt := scoreIssuesGroup_of_not_chain file l acc hch
    rw [h] at hlt
    exact lt_irrefl _ hlt
  · exact scoreIssuesGroup_of_chain file l acc

theorem scoreIssues_foldl (df : List FeatureRow) :
    ∀ (ks : List String) (acc : List String),
      (ks.foldl (fun acc k =>
          if acc.length ≥ 5 then acc else scoreIssuesGroup k acc (sortedMatchRows df k)) acc
        = [])
      ↔ (acc = [] ∧ ∀ k ∈ ks, List.Chain' scoreStepOk (sortedMatchRows df k)) := by
  intro ks
  induction ks with
  | nil => intro acc; simp
  | cons k ks ih =>
    intro acc
    rw [List.foldl_cons, ih]
    constructor
    · rintro ⟨hstep, hrest⟩
      by_cases h5 : acc.length ≥ 5
      · rw [if_pos h5] at hstep
        subst hstep
        simp at h5
      · rw [if_neg h5] at hstep
        obtain ⟨t, ht⟩ := scoreIssuesGroup_prefix k (sortedMatchRows df k) acc
        rw [ht] at hstep
        obtain ⟨hacc, htnil⟩ := List.append_eq_nil.mp hstep
        subst hacc
        have hk : List.Chain' scoreStepOk (sortedMatchRows df k) := by
          rw [← scoreIssuesGroup_eq_iff k (sortedMatchRows df k) []]
          rw [ht, htnil]
          rfl
        exact ⟨rfl, List.forall_mem_cons.mpr ⟨hk, hrest⟩⟩
    · rintro ⟨rfl, hall⟩
      have hk := List.forall_mem_cons.mp hall
      refine ⟨?_, hk.2⟩
      rw [if_neg (by simp)]
      exact scoreIssuesGroup_of_chain k (sortedMatchRows df k) [] hk.1

theorem scoreIssues_eq_nil_iff (df : List FeatureRow) :
    scoreIssues df = []
      ↔ ∀ k ∈ matchKeys df, List.Chain' scoreStepOk (sortedMatchRows df k) := by
  have h := scoreIssues_foldl df (matchKeys df) []
  simpa [scoreIssues] using h

/-- C3: the score-progression check passes exactly when, within every match
group sorted by round number, every consecutive transition whose current
round is not a side-switch round has score deltas summing to 1; and whenever
it fails, the corresponding entry is appended to the report's errors list. -/
theorem c3_score_progression (df : List FeatureRow) :
    ((validate_features df).score_progression.passed = true
      ↔ ∀ k ∈ matchKeys df, List.Chain' scoreStepOk (sortedMatchRows df k))
    ∧ ((validate_features df).score_progression.passed = false →
        scoreProgressionError df ∈ (validate_features df).errors) := by
  have hc : (validate_features df).score_progression = scoreProgressionCheck df := rfl
  have he : (validate_features df).errors = reportErrors df := rfl
  constructor
  · rw [hc]
    unfold scoreProgressionCheck
    by_cases hemp : scoreIssues df = []
    · rw [if_pos (by simp [hemp])]
      exact iff_of_true rfl ((scoreIssues_eq_nil_iff df).mp hemp)
    · rw [if_neg (by simpa using hemp)]
      refine iff_of_false (by simp) ?_
      rw [← scoreIssues_eq_nil_iff df]
      exact hemp
  · intro hfail
    rw [hc] at hfail
    unfold scoreProgressionCheck at hfail
    by_cases hemp : scoreIssues df = []
    · rw [if_pos (by simp [hemp])] at hfail
      exact absurd hfail (by simp)
    · rw [he]
      unfold reportErrors scoreProgressionErrors
      rw [if_neg (by simpa using hemp)]
      simp

/-- Witness for C3: the check passes on the concrete well-formed two-round
match and, on the match whose round-2 total score jumps by 2, the failing
check appends its entry to the errors list. -/
theorem c3_score_progression_witness :
    (validate_features exDfScoreGood).score_progression.passed = true
    ∧ scoreProgressionError exDfScoreBad ∈ (validate_features exDfScoreBad).errors :=
  ⟨(c3_score_progression exDfScoreGood).1.mpr (by decide),
   (c3_score_progression exDfScoreBad).2 (by decide)⟩

theorem build_grenade_df_eq (start_tick end_tick : Int) (rs : List ProjRecord) :
    build_grenade_df start_tick end_tick rs
      = sortRowsByTick ((keptRecords start_tick end_tick rs).map projRow) := by
  unfold build_grenade_df keptRecords qualifying
  by_cases h1 : (windowFilter start_tick end_tick rs).isEmpty = true
  · rw [if_pos h1]
    have h1' : windowFilter start_tick end_tick rs = [] := by simpa using h1
    rw [h1']
    rfl
  · rw [if_neg h1]
    by_cases h2 : ((windowFilter start_tick end_tick rs).filter hasValidPos).isEmpty = true
    · rw [if_pos h2]
      have h2' : (windowFilter start_tick end_tick rs).filter hasValidPos = [] := by
        simpa using h2
      rw [h2']
      rfl
    · rw [if_neg h2]

/-- C4: `build_grenade_df` keeps exactly one row per distinct entity among the
qualifying records (those in the tick window with a resolved position), each
kept record having the earliest tick of its entity; every output row's tick
lies strictly above the lower bound and at most the upper bound; the output
is ordered by tick; and no qualifying record yields an empty table, not an
error. -/
theorem c4_build_grenade_df_spec (start_tick end_tick : Int) (rs : List ProjRecord) :
    (qualifying start_tick end_tick rs = [] → build_grenade_df start_tick end_tick rs = [])
    ∧ (build_grenade_df start_tick end_tick rs).Perm
        ((keptRecords start_tick end_tick rs).map projRow)
    ∧ ((keptRecords start_tick end_tick rs).map (fun r => r.entity_id)).Nodup
    ∧ (∀ e : Int, e ∈ (keptRecords start_tick end_tick rs).map (fun r => r.entity_id)
        ↔ e ∈ (qualifying start_tick end_tick rs).map (fun r => r.entity_id))
    ∧ (∀ r ∈ keptRecords start_tick end_tick rs,
        r ∈ qualifying start_tick end_tick rs
        ∧ ∀ q ∈ qualifying start_tick end_tick rs,
            q.entity_id = r.entity_id → r.tick ≤ q.tick)
    ∧ (build_grenade_df start_tick end_tick rs).Pairwise (fun a b => a.tick ≤ b.tick)
    ∧ (∀ row ∈ build_grenade_df start_tick end_tick rs,
        start_tick < row.tick ∧ row.tick ≤ end_tick) := by
  have hperm : (build_grenade_df start_tick end_tick rs).Perm
      ((keptRecords start_tick end_tick rs).map projRow) := by
    rw [build_grenade_df_eq]
    exact List.perm_insertionSort _ _
  have hpermq : (sortRecsByTick (qualifying start_tick end_tick rs)).Perm
      (qualifying start_tick end_tick rs) := List.perm_insertionSort _ _
  have hsortedq : (sortRecsByTick (qualifying start_tick end_tick rs)).Pairwise
      (fun a b : ProjRecord => a.tick ≤ b.tick) := List.sorted_insertionSort _ _
  refine ⟨?_, hperm, nodup_keys_dedupBy _ _, ?_, ?_, ?_, ?_⟩
  · intro h
    rw [build_grenade_df_eq]
    unfold keptRecords
    rw [h]
    rfl
  · intro e
    exact (mem_keys_dedupBy _ _ e).trans ((hpermq.map (fun r => r.entity_id)).mem_iff)
  · intro r hr
    have hrs : r ∈ sortRecsByTick (qualifying start_tick end_tick rs) :=
      mem_of_mem_dedupBy _ _ r hr
    refine ⟨hpermq.mem_iff.mp hrs, fun q hq hqe => ?_⟩
    exact dedupBy_min (fun r : ProjRecord => r.entity_id)
      (fun a b : ProjRecord => a.tick ≤ b.tick) (fun a => le_refl a.tick) _ hsortedq r hr q
      (hpermq.mem_iff.mpr hq) hqe
  · rw [build_grenade_df_eq]
    exact List.sorted_insertionSort _ _
  · intro row hrow
    obtain ⟨r, hrkept, rfl⟩ := List.mem_map.mp (hperm.mem_iff.mp hrow)
    have hrq : r ∈ qualifying start_tick end_tick rs :=
      hpermq.mem_iff.mp (mem_of_mem_dedupBy _ _ r hrkept)
    have hcond := (List.mem_filter.mp (List.mem_of_mem_filter hrq)).2
    simp only [Bool.and_eq_true, decide_eq_true_eq] at hcond
    exact hcond

/-- Witness for C4: the window (0, 10] of `exNoQualify` has no qualifying
record and yields the empty table, and the smoke row kept from
`exProjRecords` satisfies the window bounds. -/
theorem c4_build_grenade_df_spec_witness :
    build_grenade_df 0 10 exNoQualify = []
    ∧ ((0 : Int) < (GrenadeRow.mk 7 "alice" "Smoke Grenade").tick
      ∧ (GrenadeRow.mk 7 "alice" "Smoke Grenade").tick ≤ 10) :=
  ⟨(c4_build_grenade_df_spec 0 10 exNoQualify).1 (by decide),
   (c4_build_grenade_df_spec 0 10 exProjRecords).2.2.2.2.2.2
     (GrenadeRow.mk 7 "alice" "Smoke Grenade") (by decide)⟩

/-- C9: a qualifying projectile record that is the only qualifying record of
its entity and whose stripped type label is not one of the six recognized
mapping keys is neither dropped nor rejected: `build_grenade_df` emits its
row with the stripped label passed through unchanged. -/
theorem c9_label_passthrough (start_tick end_tick : Int) (rs : List ProjRecord)
    (r : ProjRecord) (hmem : r ∈ rs) (hlo : start_tick < r.tick) (hhi : r.tick ≤ end_tick)
    (hpos : hasValidPos r = true)
    (huniq : ∀ q ∈ qualifying start_tick end_tick rs, q.entity_id = r.entity_id → q = r)
    (hunrec : grenadeMapping.lookup (stripLabel r.grenade_type) = none) :
    GrenadeRow.mk r.tick r.thrower (stripLabel r.grenade_type)
      ∈ build_grenade_df start_tick end_tick rs := by
  have hrw : r ∈ windowFilter start_tick end_tick rs :=
    List.mem_filter.mpr ⟨hmem, by simp [hlo, hhi]⟩
  have hrq : r ∈ qualifying start_tick end_tick rs := List.mem_filter.mpr ⟨hrw, hpos⟩
  have hpermq : (sortRecsByTick (qualifying start_tick end_tick rs)).Perm
      (qualifying start_tick end_tick rs) := List.perm_insertionSort _ _
  have hrsort : r ∈ sortRecsByTick (qualifying start_tick end_tick rs) :=
    hpermq.mem_iff.mpr hrq
  have hkept : r ∈ keptRecords start_tick end_tick rs := by
    apply mem_dedupBy_of_unique _ _ r hrsort
    intro y hy hky
    exact huniq y (hpermq.mem_iff.mp hy) hky
  have hlabel : projRow r = GrenadeRow.mk r.tick r.thrower (stripLabel r.grenade_type) := by
    unfold projRow canonicalLabel
    rw [hunrec]
  have hmap : projRow r ∈ (keptRecords start_tick end_tick rs).map projRow :=
    List.mem_map_of_mem projRow hkept
  rw [build_grenade_df_eq]
  have hpermout :
      (sortRowsByTick ((keptRecords start_tick end_tick rs).map projRow)).Perm
        ((keptRecords start_tick end_tick rs).map projRow) := List.perm_insertionSort _ _
  exact hpermout.mem_iff.mpr (hlabel ▸ hmap)

/-- Witness for C9: `CFireBombProjectile` strips to the unrecognized label
`FireBomb`, which appears unchanged in the output of `build_grenade_df` on
`exProjRecords`. -/
theorem c9_label_passthrough_witness :
    GrenadeRow.mk 5 "bob" (stripLabel "CFireBombProjectile")
      ∈ build_grenade_df 0 10 exProjRecords
    ∧ stripLabel "CFireBombProjectile" = "FireBomb" :=
  ⟨c9_label_passthrough 0 10 exProjRecords
      (ProjRecord.mk 5 "bob" "CFireBombProjectile" 2 (some 1) (some 2) (some 3))
      (by decide) (by decide) (by decide) (by decide) (by decide) (by decide),
   by decide⟩

end CS2
